import Mathlib

/-!
Shallow embedding of the Autonity consensus core, verified against its
natural-language specification.

Part 1 embeds consensus/tendermint/algorithm/tendermint.go: the pure
Tendermint state machine (Algorithm, StartRound, ReceiveMessage, the
OnTimeout handlers).  Machine integers are modelled as Nat (uint64) and
Int (int64); the 32-byte ValueID and 20-byte NodeID are abstracted to Nat,
with only equality and the distinguished all-zero NilValue used by the code.
The Oracle interface is a structure of pure functions, as in the source,
where the oracle answers are supplied by the environment.

Part 2 embeds the accountable-fault-detection engine: the message store
(faultdetector/msg_store.go and its afd twin), the message handler
(afd/msg_handler.go) and the rule-engine helpers (powerOfVotes,
errorToRule, the Rule codes).  External collaborators that are not part of
the repository (signature validation, block verification, RLP hashing,
proposer election) appear as oracle-style function fields, mirroring how
the Go code calls out to them.
-/

namespace Tendermint

/-- Step of the Tendermint algorithm: uint8 with Propose = 0, Prevote = 1,
Precommit = 2 (tendermint.go). -/
inductive Step : Type
  | Propose
  | Prevote
  | Precommit
deriving DecidableEq, Repr

/-- Numeric value of a Step, as the Go uint8 constants. -/
def Step.toNat : Step → Nat
  | .Propose => 0
  | .Prevote => 1
  | .Precommit => 2

/-- ValueID is an opaque 32-byte hash in the source; only equality and the
all-zero NilValue are used, so it is abstracted to Nat. -/
abbrev ValueID := Nat

/-- The all-zero ValueID. -/
def NilValue : ValueID := 0

/-- NodeID is a 20-byte validator address, abstracted to Nat. -/
abbrev NodeID := Nat

/-- ConsensusMessage of the algorithm package (tendermint.go). -/
structure ConsensusMessage where
  MsgType : Step
  Height : Nat
  Round : Int
  Value : ValueID
  ValidRound : Int
deriving DecidableEq, Repr

instance : Inhabited ConsensusMessage :=
  ⟨{ MsgType := Step.Propose, Height := 0, Round := 0, Value := NilValue, ValidRound := 0 }⟩

/-- Timeout of the algorithm package (tendermint.go). -/
structure Timeout where
  TimeoutType : Step
  Delay : Nat
  Height : Nat
  Round : Int
deriving DecidableEq, Repr

/-- The Oracle interface of tendermint.go, as a structure of pure
functions.  Height is the value the stateful oracle would return during
the calls being modelled; Value models the fallible Value() call, with
none standing for a returned error. -/
structure Oracle where
  Valid : ValueID → Bool
  MatchingProposal : ConsensusMessage → Option ConsensusMessage
  PrevoteQThresh : Int → Option ValueID → Bool
  PrecommitQThresh : Int → Option ValueID → Bool
  FThresh : Int → Bool
  Proposer : Int → NodeID → Bool
  Height : Nat
  Value : Option ValueID

/-- The Algorithm struct of tendermint.go. -/
structure Algorithm where
  nodeID : NodeID
  round : Int
  step : Step
  lockedRound : Int
  lockedValue : ValueID
  validRound : Int
  validValue : ValueID
  line34Executed : Bool
  line36Executed : Bool
  line47Executed : Bool
  oracle : Oracle

/-- New (tendermint.go): round starts at -1 so that StartRound can enforce
that it is always called with a round greater than the current round;
step and the three latches take the Go zero values. -/
def Algorithm.New (nodeID : NodeID) (oracle : Oracle) : Algorithm :=
  { nodeID := nodeID
    round := -1
    step := Step.Propose
    lockedRound := -1
    lockedValue := NilValue
    validRound := -1
    validValue := NilValue
    line34Executed := false
    line36Executed := false
    line47Executed := false
    oracle := oracle }

/-- The height helper of tendermint.go: delegates to the oracle. -/
def Algorithm.height (a : Algorithm) : Nat := a.oracle.Height

/-- The msg helper of tendermint.go: builds an outbound message at the
current height and round; ValidRound is filled in only when the current
step is Propose, otherwise it keeps the Go zero value 0. -/
def Algorithm.msg (a : Algorithm) (msgType : Step) (value : ValueID) : ConsensusMessage :=
  { MsgType := msgType
    Height := a.height
    Round := a.round
    Value := value
    ValidRound := if a.step = Step.Propose then a.validRound else 0 }

/-- The timeout helper of tendermint.go (Delay is the placeholder 1). -/
def Algorithm.timeout (a : Algorithm) (timeoutType : Step) : Timeout :=
  { TimeoutType := timeoutType, Delay := 1, Height := a.height, Round := a.round }

/-- StartRound (tendermint.go).  The Go function panics when the requested
round is not greater than the current round: that abort is modelled as
none.  Otherwise it clears the three one-shot latches, installs the new
round at step Propose, and either returns a proposal (when this node is
the proposer), an error from oracle.Value (final Bool true), or a Propose
timeout. -/
def Algorithm.StartRound (a : Algorithm) (round : Int) :
    Option (Algorithm × Option ConsensusMessage × Option Timeout × Bool) :=
  if round ≤ a.round then
    none
  else
    let a1 : Algorithm :=
      { a with
        line34Executed := false
        line36Executed := false
        line47Executed := false
        round := round
        step := Step.Propose }
    if a1.oracle.Proposer round a1.nodeID then
      if a1.validValue ≠ NilValue then
        some (a1, some (a1.msg Step.Propose a1.validValue), none, false)
      else
        match a1.oracle.Value with
        | some value => some (a1, some (a1.msg Step.Propose value), none, false)
        | none => some (a1, none, none, true)
    else
      some (a1, none, some (a1.timeout Step.Propose), false)

/-- RoundChange (tendermint.go): a request to start the enclosed round,
optionally carrying a decided proposal. -/
structure RoundChange where
  Round : Int
  Decision : Option ConsensusMessage
deriving DecidableEq, Repr

/-- The proposal the oracle matches to a message, defaulted for use inside
guards that also require the option to be populated. -/
def matching (a : Algorithm) (cm : ConsensusMessage) : ConsensusMessage :=
  (a.oracle.MatchingProposal cm).getD default

/-- Guard of the Line 22 branch of ReceiveMessage. -/
def guard22 (a : Algorithm) (cm : ConsensusMessage) : Prop :=
  cm.MsgType = Step.Propose ∧ cm.Round = a.round ∧ cm.ValidRound = -1 ∧ a.step = Step.Propose

instance guard22.dec (a : Algorithm) (cm : ConsensusMessage) : Decidable (guard22 a cm) := by
  unfold guard22
  infer_instance

/-- Guard of the Line 28 branch of ReceiveMessage. -/
def guard28 (a : Algorithm) (cm : ConsensusMessage) : Prop :=
  (cm.MsgType = Step.Propose ∨ cm.MsgType = Step.Prevote) ∧
    (a.oracle.MatchingProposal cm).isSome = true ∧
    (matching a cm).Round = a.round ∧
    a.oracle.PrevoteQThresh (matching a cm).ValidRound (some (matching a cm).Value) = true ∧
    a.step = Step.Propose ∧
    0 ≤ (matching a cm).ValidRound ∧ (matching a cm).ValidRound < a.round

instance guard28.dec (a : Algorithm) (cm : ConsensusMessage) : Decidable (guard28 a cm) := by
  unfold guard28
  infer_instance

/-- Guard of the Line 36 branch of ReceiveMessage. -/
def guard36 (a : Algorithm) (cm : ConsensusMessage) : Prop :=
  (cm.MsgType = Step.Propose ∨ cm.MsgType = Step.Prevote) ∧
    (a.oracle.MatchingProposal cm).isSome = true ∧
    (matching a cm).Round = a.round ∧
    a.oracle.PrevoteQThresh a.round (some (matching a cm).Value) = true ∧
    a.oracle.Valid (matching a cm).Value = true ∧
    Step.toNat Step.Prevote ≤ Step.toNat a.step ∧
    a.line36Executed = false

instance guard36.dec (a : Algorithm) (cm : ConsensusMessage) : Decidable (guard36 a cm) := by
  unfold guard36
  infer_instance

/-- Guard of the Line 44 branch of ReceiveMessage. -/
def guard44 (a : Algorithm) (cm : ConsensusMessage) : Prop :=
  cm.MsgType = Step.Prevote ∧ cm.Round = a.round ∧
    a.oracle.PrevoteQThresh a.round (some NilValue) = true ∧ a.step = Step.Prevote

instance guard44.dec (a : Algorithm) (cm : ConsensusMessage) : Decidable (guard44 a cm) := by
  unfold guard44
  infer_instance

/-- Guard of the Line 34 branch of ReceiveMessage. -/
def guard34 (a : Algorithm) (cm : ConsensusMessage) : Prop :=
  cm.MsgType = Step.Prevote ∧ cm.Round = a.round ∧
    a.oracle.PrevoteQThresh a.round none = true ∧ a.step = Step.Prevote ∧
    a.line34Executed = false

instance guard34.dec (a : Algorithm) (cm : ConsensusMessage) : Decidable (guard34 a cm) := by
  unfold guard34
  infer_instance

/-- Guard of the Line 49 branch of ReceiveMessage. -/
def guard49 (a : Algorithm) (cm : ConsensusMessage) : Prop :=
  (cm.MsgType = Step.Propose ∨ cm.MsgType = Step.Precommit) ∧
    (a.oracle.MatchingProposal cm).isSome = true ∧
    a.oracle.PrecommitQThresh (matching a cm).Round (some (matching a cm).Value) = true

instance guard49.dec (a : Algorithm) (cm : ConsensusMessage) : Decidable (guard49 a cm) := by
  unfold guard49
  infer_instance

/-- Guard of the Line 47 branch of ReceiveMessage. -/
def guard47 (a : Algorithm) (cm : ConsensusMessage) : Prop :=
  cm.MsgType = Step.Precommit ∧ cm.Round = a.round ∧
    a.oracle.PrecommitQThresh a.round none = true ∧ a.line47Executed = false

instance guard47.dec (a : Algorithm) (cm : ConsensusMessage) : Decidable (guard47 a cm) := by
  unfold guard47
  infer_instance

/-- Guard of the Line 55 branch of ReceiveMessage. -/
def guard55 (a : Algorithm) (cm : ConsensusMessage) : Prop :=
  a.round < cm.Round ∧ a.oracle.FThresh cm.Round = true

instance guard55.dec (a : Algorithm) (cm : ConsensusMessage) : Decidable (guard55 a cm) := by
  unfold guard55
  infer_instance

/-- ReceiveMessage (tendermint.go): processes one consensus message against
the upon-conditions in the re-ordered sequence of the source (22, 28, 36,
44, 34, 49, 47, 55); the first condition that holds determines the result.
The Line 22 value condition keeps the Go operator precedence of the
source, in which the conjunction binds tighter than the disjunction. -/
def Algorithm.ReceiveMessage (a : Algorithm) (cm : ConsensusMessage) :
    Algorithm × Option RoundChange × Option ConsensusMessage × Option Timeout :=
  if guard22 a cm then
    let a1 := { a with step := Step.Prevote }
    if (a.oracle.Valid cm.Value = true ∧ a1.lockedRound = -1) ∨ a1.lockedValue = cm.Value then
      (a1, none, some (a1.msg Step.Prevote cm.Value), none)
    else
      (a1, none, some (a1.msg Step.Prevote NilValue), none)
  else if guard28 a cm then
    let p := matching a cm
    let a1 := { a with step := Step.Prevote }
    if a.oracle.Valid p.Value = true ∧ (a1.lockedRound ≤ p.ValidRound ∨ a1.lockedValue = p.Value) then
      (a1, none, some (a1.msg Step.Prevote p.Value), none)
    else
      (a1, none, some (a1.msg Step.Prevote NilValue), none)
  else if guard36 a cm then
    let p := matching a cm
    let a1 :=
      if a.step = Step.Prevote then
        { a with
          line36Executed := true
          lockedValue := p.Value
          lockedRound := a.round
          step := Step.Precommit
          validValue := p.Value
          validRound := a.round }
      else
        { a with line36Executed := true, validValue := p.Value, validRound := a.round }
    (a1, none, some (a1.msg Step.Precommit p.Value), none)
  else if guard44 a cm then
    let a1 := { a with step := Step.Precommit }
    (a1, none, some (a1.msg Step.Precommit NilValue), none)
  else if guard34 a cm then
    let a1 := { a with line34Executed := true }
    (a1, none, none, some (a1.timeout Step.Prevote))
  else if guard49 a cm then
    let p := matching a cm
    let a1 :=
      if a.oracle.Valid p.Value = true then
        { a with lockedRound := -1, lockedValue := NilValue, validRound := -1, validValue := NilValue }
      else
        a
    (a1, some { Round := 0, Decision := some p }, none, none)
  else if guard47 a cm then
    let a1 := { a with line47Executed := true }
    (a1, none, none, some (a1.timeout Step.Precommit))
  else if guard55 a cm then
    (a, some { Round := cm.Round, Decision := none }, none, none)
  else
    (a, none, none, none)

/-- OnTimeoutPropose (tendermint.go). -/
def Algorithm.OnTimeoutPropose (a : Algorithm) (height : Nat) (round : Int) :
    Algorithm × Option ConsensusMessage :=
  if height = a.height ∧ round = a.round ∧ a.step = Step.Propose then
    let a1 := { a with step := Step.Prevote }
    (a1, some (a1.msg Step.Prevote NilValue))
  else
    (a, none)

/-- OnTimeoutPrevote (tendermint.go). -/
def Algorithm.OnTimeoutPrevote (a : Algorithm) (height : Nat) (round : Int) :
    Algorithm × Option ConsensusMessage :=
  if height = a.height ∧ round = a.round ∧ a.step = Step.Prevote then
    let a1 := { a with step := Step.Precommit }
    (a1, some (a1.msg Step.Precommit NilValue))
  else
    (a, none)

/-- OnTimeoutPrecommit (tendermint.go): requests a change to the next round
when the timeout still matches the current height and round. -/
def Algorithm.OnTimeoutPrecommit (a : Algorithm) (height : Nat) (round : Int) :
    Option RoundChange :=
  if height = a.height ∧ round = a.round then
    some { Round := a.round + 1, Decision := none }
  else
    none

/-- ReceiveMessage takes the Line 22 branch: its guard holds (it is the
first condition checked). -/
def takes22 (a : Algorithm) (cm : ConsensusMessage) : Prop :=
  guard22 a cm

/-- ReceiveMessage takes the Line 36 branch: its guard holds and no earlier
branch fires. -/
def takes36 (a : Algorithm) (cm : ConsensusMessage) : Prop :=
  ¬ guard22 a cm ∧ ¬ guard28 a cm ∧ guard36 a cm

instance takes36.dec (a : Algorithm) (cm : ConsensusMessage) : Decidable (takes36 a cm) := by
  unfold takes36
  infer_instance

/-- ReceiveMessage takes the Line 34 branch: its guard holds and no earlier
branch fires. -/
def takes34 (a : Algorithm) (cm : ConsensusMessage) : Prop :=
  ¬ guard22 a cm ∧ ¬ guard28 a cm ∧ ¬ guard36 a cm ∧ ¬ guard44 a cm ∧ guard34 a cm

instance takes34.dec (a : Algorithm) (cm : ConsensusMessage) : Decidable (takes34 a cm) := by
  unfold takes34
  infer_instance

/-- ReceiveMessage takes the Line 47 branch: its guard holds and no earlier
branch fires. -/
def takes47 (a : Algorithm) (cm : ConsensusMessage) : Prop :=
  ¬ guard22 a cm ∧ ¬ guard28 a cm ∧ ¬ guard36 a cm ∧ ¬ guard44 a cm ∧ ¬ guard34 a cm ∧
    ¬ guard49 a cm ∧ guard47 a cm

instance takes47.dec (a : Algorithm) (cm : ConsensusMessage) : Decidable (takes47 a cm) := by
  unfold takes47
  infer_instance

/-- ReceiveMessage takes the Line 55 branch: its guard holds and no earlier
branch fires. -/
def takes55 (a : Algorithm) (cm : ConsensusMessage) : Prop :=
  ¬ guard22 a cm ∧ ¬ guard28 a cm ∧ ¬ guard36 a cm ∧ ¬ guard44 a cm ∧ ¬ guard34 a cm ∧
    ¬ guard49 a cm ∧ ¬ guard47 a cm ∧ guard55 a cm

instance takes55.dec (a : Algorithm) (cm : ConsensusMessage) : Decidable (takes55 a cm) := by
  unfold takes55
  infer_instance

/-- Number of times the Line 36 branch fires along a sequence of
ReceiveMessage calls starting from a given state. -/
def count36 : Algorithm → List ConsensusMessage → Nat
  | _, [] => 0
  | a, cm :: rest => (if takes36 a cm then 1 else 0) + count36 (a.ReceiveMessage cm).1 rest

/-- Number of times the Line 34 branch fires along a sequence of
ReceiveMessage calls starting from a given state. -/
def count34 : Algorithm → List ConsensusMessage → Nat
  | _, [] => 0
  | a, cm :: rest => (if takes34 a cm then 1 else 0) + count34 (a.ReceiveMessage cm).1 rest

/-- Number of times the Line 47 branch fires along a sequence of
ReceiveMessage calls starting from a given state. -/
def count47 : Algorithm → List ConsensusMessage → Nat
  | _, [] => 0
  | a, cm :: rest => (if takes47 a cm then 1 else 0) + count47 (a.ReceiveMessage cm).1 rest

end Tendermint

namespace Afd

/-- Message code of a proposal.  The numeric constants live outside the
given sources (consensus/tendermint/core); only their distinctness is
used here. -/
def MsgProposal : Nat := 0

/-- Message code of a prevote. -/
def MsgPrevote : Nat := 1

/-- Message code of a precommit. -/
def MsgPrecommit : Nat := 2

/-- The types.ConsensusMessage of the fault-detection packages.  The
fallible Height and Round decoders are modelled as options (none stands
for a decode error); Payload bytes and the 32-byte value hash are
abstracted to Nat; decodesProposal and decodesVote model the success of
m.Decode into a Proposal and into a Vote. -/
structure ConsensusMessage where
  code : Nat
  height : Option Nat
  round : Option Int
  value : Nat
  validRound : Int
  sender : Nat
  power : Nat
  payload : Nat
  decodesProposal : Bool
  decodesVote : Bool
deriving DecidableEq, Repr

/-- The H helper: height with the Go zero value on decode error. -/
def ConsensusMessage.H (m : ConsensusMessage) : Nat := m.height.getD 0

/-- The R helper: round with the Go zero value on decode error. -/
def ConsensusMessage.R (m : ConsensusMessage) : Int := m.round.getD 0

/-- Error values of the afd package (errors.go is not among the sources;
the identifiers are taken from their use sites in msg_handler.go).
errDecode stands for the error returned by a failing Height decode. -/
inductive AfdError : Type
  | errFutureMsg
  | errNotCommitteeMsg
  | errGarbageMsg
  | errProposer
  | errProposal
  | errEquivocation
  | errUnknownMsg
  | errDecode
deriving DecidableEq, Repr

/-- Rule (types, src/unnamed/part_000): uint8 enumeration built with iota,
so PN = 0 and the constants count up from there. -/
inductive Rule : Type
  | PN
  | PO
  | PVN
  | PVO
  | C
  | C1
  | GarbageMessage
  | InvalidProposal
  | InvalidProposer
  | Equivocation
  | UnknownRule
deriving DecidableEq, Repr

/-- Numeric value of a Rule, as the Go iota-assigned uint8 constants. -/
def Rule.value : Rule → Nat
  | .PN => 0
  | .PO => 1
  | .PVN => 2
  | .PVO => 3
  | .C => 4
  | .C1 => 5
  | .GarbageMessage => 6
  | .InvalidProposal => 7
  | .InvalidProposer => 8
  | .Equivocation => 9
  | .UnknownRule => 10

/-- errorToRule (src/unnamed/part_001): maps a protocol-fault error to the
Rule carried by the proof envelope; the Bool is true when the Go function
returns a nil error. -/
def errorToRule (err : AfdError) : Rule × Bool :=
  match err with
  | AfdError.errEquivocation => (Rule.Equivocation, true)
  | AfdError.errProposer => (Rule.InvalidProposer, true)
  | AfdError.errProposal => (Rule.InvalidProposal, true)
  | AfdError.errGarbageMsg => (Rule.GarbageMessage, true)
  | _ => (Rule.UnknownRule, false)

/-- powerOfVotes (src/unnamed/part_001): folds the voting power of the
messages in the list, skipping a message when its type differs from
MsgPrevote or differs from MsgPrecommit — the disjunction is kept exactly
as the source writes it.  The uint64 accumulation wraps modulo 2^64. -/
def powerOfVotes (votes : List ConsensusMessage) : Nat :=
  votes.foldl
    (fun power v =>
      if v.code ≠ MsgPrevote ∨ v.code ≠ MsgPrecommit then power
      else (power + v.power) % 2 ^ 64)
    0

/-- Key of the four-level message-store map: (height, round, msg code,
sender address), with the Go zero values standing in when a decoder
errs (the source discards those errors). -/
def ConsensusMessage.key (m : ConsensusMessage) : Nat × Int × Nat × Nat :=
  (m.H, m.R, m.code, m.sender)

/-- The MsgStore map, represented as an association list from the
four-level key to the first message stored for that key.  Save only ever
inserts at an absent key, so keys are unique; list order carries no
meaning (Go map iteration order is unspecified). -/
abbrev MsgStore := List ((Nat × Int × Nat × Nat) × ConsensusMessage)

/-- Lookup in the four-level map. -/
def lookupKey (ms : MsgStore) (k : Nat × Int × Nat × Nat) : Option ConsensusMessage :=
  (ms.find? (fun e => e.1 == k)).map (·.2)

/-- Save (faultdetector/msg_store.go and its afd twin in
src/unnamed/part_000): inserts the message when its key is absent;
otherwise compares the RLP hash of the stored payload with that of the
incoming payload, returning the stored message with errEquivocation when
they differ and leaving the store unchanged in both non-insert cases.
The external RLP hash is a parameter. -/
def MsgStore.Save (rlpHash : Nat → Nat) (ms : MsgStore) (m : ConsensusMessage) :
    MsgStore × Option ConsensusMessage × Option AfdError :=
  match lookupKey ms m.key with
  | none => ((m.key, m) :: ms, none, none)
  | some msg =>
    if rlpHash msg.payload ≠ rlpHash m.payload then
      (ms, some msg, some AfdError.errEquivocation)
    else
      (ms, none, none)

/-- Messages stored at a height, in store-representation order. -/
def msgsAtHeight (ms : MsgStore) (height : Nat) : List ConsensusMessage :=
  (ms.filter (fun e => e.1.1 == height)).map (·.2)

/-- The body of the Get scan (faultdetector/msg_store.go): appends to the
result every visited message satisfying the query, in visit order. -/
def getLoop (query : ConsensusMessage → Bool) (entries : List ConsensusMessage) :
    List ConsensusMessage :=
  entries.foldl (fun result m => if query m then result ++ [m] else result) []

/-- Get (faultdetector/msg_store.go): scans the nested maps at the given
height and returns copies of the messages matching the query.  Go map
iteration visits entries in an unspecified order, so the visit order is an
explicit parameter here; IterationOrder below says which orders the store
can produce. -/
def MsgStore.Get (ms : MsgStore) (height : Nat) (query : ConsensusMessage → Bool)
    (order : List ConsensusMessage) : List ConsensusMessage :=
  getLoop query order

/-- An order in which the nested Go maps can visit the messages of a
height: any permutation of the stored messages at that height.  (Go fixes
no order at all for map iteration; nesting only constrains which
permutations occur, and every order used in the theorems below respects
the nesting.) -/
def IterationOrder (ms : MsgStore) (height : Nat) (order : List ConsensusMessage) : Prop :=
  order.Perm (msgsAtHeight ms height)

/-- Strict-ascending-key comparison on (round, msg code, sender) used to
state the ordering the specification asserts for Get results. -/
def msgKeyLe (x y : ConsensusMessage) : Prop :=
  x.R < y.R ∨ (x.R = y.R ∧ (x.code < y.code ∨ (x.code = y.code ∧ x.sender ≤ y.sender)))

instance msgKeyLe.dec (x y : ConsensusMessage) : Decidable (msgKeyLe x y) := by
  unfold msgKeyLe
  infer_instance

/-- A Get result in the stable ascending (round, step, sender) order the
specification claims. -/
def SortedGet (l : List ConsensusMessage) : Prop := l.Chain' msgKeyLe

/-- Outcome of the external block verifier called by verifyProposal:
nil, the consensus ErrFutureBlock, or any other verification error. -/
inductive VerifyErr : Type
  | futureBlock
  | otherErr
deriving DecidableEq, Repr

/-- The blockchain collaborator of afd/msg_handler.go.  Only
currentHeaderNumber is data of the handler itself; validateSig (the
m.Validate committee-membership check against the header at the given
number), isProposerMsg (proposer election through the autonity contract)
and verifyProposal (the block verifier) are external calls modelled as
oracle functions. -/
structure Chain where
  currentHeaderNumber : Nat
  validateSig : Nat → ConsensusMessage → Bool
  isProposerMsg : ConsensusMessage → Bool
  verifyProposal : ConsensusMessage → Option VerifyErr

/-- Cmp on big integers: -1, 0 or 1, as math/big returns. -/
def bigCmp (x y : Nat) : Int :=
  if x < y then -1 else if x = y then 0 else 1

/-- checkMsgSignature (afd/msg_handler.go): returns the Height decode
error when the height cannot be read; classifies the message as future
when Cmp of its height against the current header number exceeds 1 (the
comparison the source actually performs); otherwise validates committee
membership against the header at height-1. -/
def checkMsgSignature (chain : Chain) (m : ConsensusMessage) : Option AfdError :=
  match m.height with
  | none => some AfdError.errDecode
  | some msgHeight =>
    if bigCmp msgHeight chain.currentHeaderNumber > 1 then
      some AfdError.errFutureMsg
    else if chain.validateSig (msgHeight - 1) m then
      none
    else
      some AfdError.errNotCommitteeMsg

/-- checkProposal (afd/msg_handler.go): garbage when the payload does not
decode as a proposal, invalid proposer when the sender is not the round
proposer, then the block verifier with ErrFutureBlock mapped to the
future-message error and any other failure to errProposal. -/
def checkProposal (chain : Chain) (m : ConsensusMessage) : Option AfdError :=
  if ¬ m.decodesProposal then
    some AfdError.errGarbageMsg
  else if ¬ chain.isProposerMsg m then
    some AfdError.errProposer
  else
    match chain.verifyProposal m with
    | none => none
    | some VerifyErr.futureBlock => some AfdError.errFutureMsg
    | some VerifyErr.otherErr => some AfdError.errProposal

/-- decodeVote (afd/msg_handler.go). -/
def decodeVote (m : ConsensusMessage) : Option AfdError :=
  if m.decodesVote then none else some AfdError.errGarbageMsg

/-- checkAutoIncriminatingMsg (afd/msg_handler.go). -/
def checkAutoIncriminatingMsg (chain : Chain) (m : ConsensusMessage) : Option AfdError :=
  if m.code = MsgProposal then
    checkProposal chain m
  else if m.code = MsgPrevote ∨ m.code = MsgPrecommit then
    decodeVote m
  else
    some AfdError.errUnknownMsg

/-- The FaultDetector state touched by the message handler: the chain
collaborator, the future-message buffer (the futureMsgs map, represented
as an association list from height to the appended slice), the message
store, the external RLP hash, and an outbox recording each
submitMisbehavior event as (rule, message, evidence). -/
structure FaultDetector where
  chain : Chain
  futureMsgs : List (Nat × List ConsensusMessage)
  msgStore : MsgStore
  rlpHash : Nat → Nat
  outbox : List (Rule × ConsensusMessage × List ConsensusMessage)

/-- Append a message to the slice of its height in the futureMsgs map. -/
def insertFuture :
    List (Nat × List ConsensusMessage) → Nat → ConsensusMessage →
      List (Nat × List ConsensusMessage)
  | [], h, m => [(h, [m])]
  | (h0, msgs) :: rest, h, m =>
    if h0 = h then (h0, msgs ++ [m]) :: rest else (h0, msgs) :: insertFuture rest h m

/-- bufferMsg (afd/msg_handler.go): drops the message when its height does
not decode, otherwise appends it to the buffer of its height. -/
def bufferMsg (fd : FaultDetector) (m : ConsensusMessage) : FaultDetector :=
  match m.height with
  | none => fd
  | some h => { fd with futureMsgs := insertFuture fd.futureMsgs h m }

/-- submitMisbehavior (afd/msg_handler.go): forms the on-chain proof from
errorToRule and sends it; modelled as recording (rule, message, evidence)
in the outbox. -/
def submitMisbehavior (fd : FaultDetector) (m : ConsensusMessage)
    (proofs : List ConsensusMessage) (err : AfdError) : FaultDetector :=
  { fd with outbox := fd.outbox ++ [((errorToRule err).1, m, proofs)] }

/-- The store-and-report tail of processMsg: Save the message, and on
equivocation with a non-nil prior message submit the misbehavior and
return the error. -/
def saveStep (fd : FaultDetector) (m : ConsensusMessage) : FaultDetector × Option AfdError :=
  let r := MsgStore.Save fd.rlpHash fd.msgStore m
  let fd1 := { fd with msgStore := r.1 }
  match r.2.1, r.2.2 with
  | some p, some AfdError.errEquivocation =>
    (submitMisbehavior fd1 m [p] AfdError.errEquivocation, some AfdError.errEquivocation)
  | _, _ => (fd1, none)

/-- processMsg (afd/msg_handler.go): the committee pre-check buffers on
the future error and returns any error; the auto-incrimination check
buffers on the future error and then falls through to the store (as the
source does), or submits the misbehavior and returns; finally the message
is saved with equivocation reporting. -/
def processMsg (fd : FaultDetector) (m : ConsensusMessage) : FaultDetector × Option AfdError :=
  match checkMsgSignature fd.chain m with
  | some err =>
    (if err = AfdError.errFutureMsg then bufferMsg fd m else fd, some err)
  | none =>
    match checkAutoIncriminatingMsg fd.chain m with
    | some err =>
      if err = AfdError.errFutureMsg then
        saveStep (bufferMsg fd m) m
      else
        (submitMisbehavior fd m [m] err, some err)
    | none => saveStep fd m

/-- processBufferedMsgs (afd/msg_handler.go): iterates the futureMsgs map
and, for each entry, re-processes its messages when the guarding
comparison holds.  In the source the loop variable shadows the height
parameter, so the comparison reads the loop variable on both sides; the
embedding keeps that comparison exactly (entry height against entry
height).  No entry is ever removed from the buffer. -/
def processBufferedMsgs (fd : FaultDetector) (height : Nat) : FaultDetector :=
  fd.futureMsgs.foldl
    (fun acc entry =>
      if entry.1 ≤ entry.1 then
        entry.2.foldl (fun acc2 m => (processMsg acc2 m).1) acc
      else acc)
    fd

/-- The messages processBufferedMsgs hands to processMsg, in buffer order:
the entries whose height passes the guarding comparison of the source
(the self-comparison produced by the shadowed loop variable). -/
def replayedMsgs (fd : FaultDetector) (height : Nat) : List ConsensusMessage :=
  fd.futureMsgs.foldl
    (fun acc entry => if entry.1 ≤ entry.1 then acc ++ entry.2 else acc)
    []

end Afd

namespace Tendermint

/-- An oracle for concrete evaluations: no matching proposals, no
thresholds reached, this node never the proposer. -/
def testOracle : Oracle :=
  { Valid := fun _ => true
    MatchingProposal := fun _ => none
    PrevoteQThresh := fun _ _ => false
    PrecommitQThresh := fun _ _ => false
    FThresh := fun _ => false
    Proposer := fun _ _ => false
    Height := 1
    Value := some 1 }

/-- A fresh Algorithm over testOracle. -/
def a0 : Algorithm := Algorithm.New 0 testOracle

/-- The result of starting round 0 from the fresh state a0. -/
def sr0 : Algorithm × Option ConsensusMessage × Option Timeout × Bool :=
  ({ a0 with round := 0 }, none,
    some { TimeoutType := Step.Propose, Delay := 1, Height := 1, Round := 0 }, false)

/-- An oracle whose validity check rejects every value. -/
def oInvalid : Oracle :=
  { Valid := fun _ => false
    MatchingProposal := fun _ => none
    PrevoteQThresh := fun _ _ => false
    PrecommitQThresh := fun _ _ => false
    FThresh := fun _ => false
    Proposer := fun _ _ => false
    Height := 11
    Value := some 1 }

/-- A state at round 0, step Propose, locked on value 7 from round 2. -/
def aLocked : Algorithm :=
  { Algorithm.New 3 oInvalid with round := 0, lockedRound := 2, lockedValue := 7 }

/-- A round-0 proposal for value 7 with valid round -1. -/
def cmProp : ConsensusMessage :=
  { MsgType := Step.Propose, Height := 11, Round := 0, Value := 7, ValidRound := -1 }

/-- A stored proposal used as the matching proposal of the decide branch. -/
def pp0 : ConsensusMessage :=
  { MsgType := Step.Propose, Height := 11, Round := 2, Value := 5, ValidRound := -1 }

/-- An oracle that reports a precommit quorum for the matching proposal. -/
def oDecide : Oracle :=
  { Valid := fun _ => true
    MatchingProposal := fun _ => some pp0
    PrevoteQThresh := fun _ _ => false
    PrecommitQThresh := fun _ _ => true
    FThresh := fun _ => false
    Proposer := fun _ _ => false
    Height := 11
    Value := some 1 }

/-- A state in which a precommit triggers the Line 49 decision. -/
def aD : Algorithm := { Algorithm.New 1 oDecide with round := 2, step := Step.Prevote }

/-- The precommit that triggers the Line 49 decision from aD. -/
def cmD : ConsensusMessage :=
  { MsgType := Step.Precommit, Height := 11, Round := 2, Value := 5, ValidRound := 0 }

/-- The RoundChange returned by the Line 49 decision from aD. -/
def rcD : RoundChange := { Round := 0, Decision := some pp0 }

/-- An oracle whose failure threshold is always reached. -/
def oSkip : Oracle :=
  { Valid := fun _ => true
    MatchingProposal := fun _ => none
    PrevoteQThresh := fun _ _ => false
    PrecommitQThresh := fun _ _ => false
    FThresh := fun _ => true
    Proposer := fun _ _ => false
    Height := 11
    Value := some 1 }

/-- A fresh state over oSkip, about to skip to round 5. -/
def aS : Algorithm := Algorithm.New 2 oSkip

/-- A round-5 message that triggers the Line 55 round skip from aS. -/
def cmS : ConsensusMessage :=
  { MsgType := Step.Precommit, Height := 11, Round := 5, Value := 0, ValidRound := 0 }

/-- The RoundChange returned by the Line 55 skip from aS. -/
def rcS : RoundChange := { Round := 5, Decision := none }

/-- The RoundChange returned by OnTimeoutPrecommit from a0 at its height
and round. -/
def rcT : RoundChange := { Round := 0, Decision := none }

end Tendermint

namespace Afd

/-- A baseline vote message for concrete evaluations. -/
def baseAfd : ConsensusMessage :=
  { code := MsgPrevote, height := some 11, round := some 0, value := 0, validRound := 0,
    sender := 0, power := 0, payload := 0, decodesProposal := false, decodesVote := true }

/-- A prevote with voting power 1. -/
def mPv : ConsensusMessage := { baseAfd with power := 1 }

/-- A stored prevote for value 1 from sender 4. -/
def m1 : ConsensusMessage := { baseAfd with sender := 4, payload := 10, value := 1, power := 1 }

/-- An equivocating prevote: same key as m1, different payload and value. -/
def m2 : ConsensusMessage := { m1 with payload := 20, value := 2 }

/-- A store already holding m1 at its key. -/
def msEquiv : MsgStore := [(m1.key, m1)]

/-- A prevote at round 3 from sender 1. -/
def mA : ConsensusMessage := { baseAfd with round := some 3, sender := 1 }

/-- A prevote at round 5 from sender 2. -/
def mB : ConsensusMessage := { baseAfd with round := some 5, sender := 2 }

/-- A store holding mA and mB at height 11. -/
def ms7 : MsgStore := [(mA.key, mA), (mB.key, mB)]

/-- The all-accepting query. -/
def qTrue : ConsensusMessage → Bool := fun _ => true

/-- A chain whose head is at height 5 and whose committee check rejects. -/
def chain3 : Chain :=
  { currentHeaderNumber := 5
    validateSig := fun _ _ => false
    isProposerMsg := fun _ => false
    verifyProposal := fun _ => none }

/-- A message whose height 7 exceeds the chain head 5 plus one. -/
def mFut : ConsensusMessage := { baseAfd with height := some 7 }

/-- A fault detector over chain3 with empty buffers. -/
def fd3 : FaultDetector :=
  { chain := chain3, futureMsgs := [], msgStore := [], rlpHash := id, outbox := [] }

/-- A buffered message at height 2 (at most head + 1 when the head is 5). -/
def mE : ConsensusMessage := { baseAfd with height := some 2 }

/-- A buffered message at height 12 (beyond head + 1 when the head is 5). -/
def mF : ConsensusMessage := { baseAfd with height := some 12 }

/-- A fault detector with buffered future messages at heights 2 and 12. -/
def fd5 : FaultDetector :=
  { chain := chain3, futureMsgs := [(2, [mE]), (12, [mF])], msgStore := [], rlpHash := id,
    outbox := [] }

end Afd


namespace Tendermint

/-- The Line 36 branch sets the line36Executed latch. -/
theorem rm36_of_takes (a : Algorithm) (cm : ConsensusMessage) (h : takes36 a cm) :
    ((a.ReceiveMessage cm).1).line36Executed = true := by
  obtain ⟨h1, h2, h3⟩ := h
  simp only [Algorithm.ReceiveMessage, if_neg h1, if_neg h2, if_pos h3]
  split <;> rfl

/-- No branch other than Line 36 touches the line36Executed latch. -/
theorem rm36_of_not (a : Algorithm) (cm : ConsensusMessage) (h : ¬ takes36 a cm) :
    ((a.ReceiveMessage cm).1).line36Executed = a.line36Executed := by
  unfold takes36 at h
  simp only [Algorithm.ReceiveMessage]
  split_ifs <;> first | rfl | tauto

/-- Once the line36Executed latch is set, the Line 36 guard is false. -/
theorem not_takes36 (a : Algorithm) (cm : ConsensusMessage) (h : a.line36Executed = true) :
    ¬ takes36 a cm := by
  rintro ⟨-, -, hg⟩
  unfold guard36 at hg
  simp [h] at hg

/-- The Line 34 branch sets the line34Executed latch. -/
theorem rm34_of_takes (a : Algorithm) (cm : ConsensusMessage) (h : takes34 a cm) :
    ((a.ReceiveMessage cm).1).line34Executed = true := by
  obtain ⟨h1, h2, h3, h4, h5⟩ := h
  simp only [Algorithm.ReceiveMessage, if_neg h1, if_neg h2, if_neg h3, if_neg h4, if_pos h5]

/-- No branch other than Line 34 touches the line34Executed latch. -/
theorem rm34_of_not (a : Algorithm) (cm : ConsensusMessage) (h : ¬ takes34 a cm) :
    ((a.ReceiveMessage cm).1).line34Executed = a.line34Executed := by
  unfold takes34 at h
  simp only [Algorithm.ReceiveMessage]
  split_ifs <;> first | rfl | tauto

/-- Once the line34Executed latch is set, the Line 34 guard is false. -/
theorem not_takes34 (a : Algorithm) (cm : ConsensusMessage) (h : a.line34Executed = true) :
    ¬ takes34 a cm := by
  rintro ⟨-, -, -, -, hg⟩
  unfold guard34 at hg
  simp [h] at hg

/-- The Line 47 branch sets the line47Executed latch. -/
theorem rm47_of_takes (a : Algorithm) (cm : ConsensusMessage) (h : takes47 a cm) :
    ((a.ReceiveMessage cm).1).line47Executed = true := by
  obtain ⟨h1, h2, h3, h4, h5, h6, h7⟩ := h
  simp only [Algorithm.ReceiveMessage, if_neg h1, if_neg h2, if_neg h3, if_neg h4, if_neg h5,
    if_neg h6, if_pos h7]

/-- No branch other than Line 47 touches the line47Executed latch. -/
theorem rm47_of_not (a : Algorithm) (cm : ConsensusMessage) (h : ¬ takes47 a cm) :
    ((a.ReceiveMessage cm).1).line47Executed = a.line47Executed := by
  unfold takes47 at h
  simp only [Algorithm.ReceiveMessage]
  split_ifs <;> first | rfl | tauto

/-- Once the line47Executed latch is set, the Line 47 guard is false. -/
theorem not_takes47 (a : Algorithm) (cm : ConsensusMessage) (h : a.line47Executed = true) :
    ¬ takes47 a cm := by
  rintro ⟨-, -, -, -, -, -, hg⟩
  unfold guard47 at hg
  simp [h] at hg

end Tendermint

namespace Tendermint

/-- After the line36Executed latch is set, the Line 36 branch never fires
again within the round. -/
theorem count36_zero : ∀ (msgs : List ConsensusMessage) (a : Algorithm),
    a.line36Executed = true → count36 a msgs = 0
  | [], _, _ => rfl
  | cm :: rest, a, h => by
    have hn := not_takes36 a cm h
    have hf : ((a.ReceiveMessage cm).1).line36Executed = true := by
      rw [rm36_of_not a cm hn, h]
    unfold count36
    rw [if_neg hn, count36_zero rest _ hf]

/-- From a state with the line36Executed latch clear, the Line 36 branch
fires at most once along any sequence of ReceiveMessage calls. -/
theorem count36_le_one : ∀ (msgs : List ConsensusMessage) (a : Algorithm),
    a.line36Executed = false → count36 a msgs ≤ 1
  | [], _, _ => Nat.zero_le 1
  | cm :: rest, a, h => by
    unfold count36
    by_cases ht : takes36 a cm
    · rw [if_pos ht, count36_zero rest _ (rm36_of_takes a cm ht)]
    · rw [if_neg ht]
      have hf : ((a.ReceiveMessage cm).1).line36Executed = false := by
        rw [rm36_of_not a cm ht, h]
      simpa using count36_le_one rest _ hf

/-- After the line34Executed latch is set, the Line 34 branch never fires
again within the round. -/
theorem count34_zero : ∀ (msgs : List ConsensusMessage) (a : Algorithm),
    a.line34Executed = true → count34 a msgs = 0
  | [], _, _ => rfl
  | cm :: rest, a, h => by
    have hn := not_takes34 a cm h
    have hf : ((a.ReceiveMessage cm).1).line34Executed = true := by
      rw [rm34_of_not a cm hn, h]
    unfold count34
    rw [if_neg hn, count34_zero rest _ hf]

/-- From a state with the line34Executed latch clear, the Line 34 branch
fires at most once along any sequence of ReceiveMessage calls. -/
theorem count34_le_one : ∀ (msgs : List ConsensusMessage) (a : Algorithm),
    a.line34Executed = false → count34 a msgs ≤ 1
  | [], _, _ => Nat.zero_le 1
  | cm :: rest, a, h => by
    unfold count34
    by_cases ht : takes34 a cm
    · rw [if_pos ht, count34_zero rest _ (rm34_of_takes a cm ht)]
    · rw [if_neg ht]
      have hf : ((a.ReceiveMessage cm).1).line34Executed = false := by
        rw [rm34_of_not a cm ht, h]
      simpa using count34_le_one rest _ hf

/-- After the line47Executed latch is set, the Line 47 branch never fires
again within the round. -/
theorem count47_zero : ∀ (msgs : List ConsensusMessage) (a : Algorithm),
    a.line47Executed = true → count47 a msgs = 0
  | [], _, _ => rfl
  | cm :: rest, a, h => by
    have hn := not_takes47 a cm h
    have hf : ((a.ReceiveMessage cm).1).line47Executed = true := by
      rw [rm47_of_not a cm hn, h]
    unfold count47
    rw [if_neg hn, count47_zero rest _ hf]

/-- From a state with the line47Executed latch clear, the Line 47 branch
fires at most once along any sequence of ReceiveMessage calls. -/
theorem count47_le_one : ∀ (msgs : List ConsensusMessage) (a : Algorithm),
    a.line47Executed = false → count47 a msgs ≤ 1
  | [], _, _ => Nat.zero_le 1
  | cm :: rest, a, h => by
    unfold count47
    by_cases ht : takes47 a cm
    · rw [if_pos ht, count47_zero rest _ (rm47_of_takes a cm ht)]
    · rw [if_neg ht]
      have hf : ((a.ReceiveMessage cm).1).line47Executed = false := by
        rw [rm47_of_not a cm ht, h]
      simpa using count47_le_one rest _ hf

/-- A successful StartRound leaves all three one-shot latches clear. -/
theorem startRound_flags (a : Algorithm) (r : Int)
    (res : Algorithm × Option ConsensusMessage × Option Timeout × Bool)
    (h : a.StartRound r = some res) :
    res.1.line34Executed = false ∧ res.1.line36Executed = false ∧
      res.1.line47Executed = false := by
  simp only [Algorithm.StartRound] at h
  split_ifs at h <;> try (cases h; exact ⟨rfl, rfl, rfl⟩)
  split at h <;> (cases h; exact ⟨rfl, rfl, rfl⟩)

/-- A StartRound call with a round greater than the current round does not
abort. -/
theorem startRound_isSome (a : Algorithm) (r : Int) (h : a.round < r) :
    (a.StartRound r).isSome = true := by
  simp only [Algorithm.StartRound]
  rw [if_neg (not_le.mpr h)]
  split
  · split
    · rfl
    · split <;> rfl
  · rfl

end Tendermint

namespace Afd

/-- The skip condition of powerOfVotes holds for every message, so th
fold returns its accumulator unchanged. -/
theorem powerOfVotes_foldl : ∀ (votes : List ConsensusMessage) (acc : Nat),
    votes.foldl
      (fun power v =>
        if v.code ≠ MsgPrevote ∨ v.code ≠ MsgPrecommit then power
        else (power + v.power) % 2 ^ 64)
      acc = acc
  | [], _ => rfl
  | v :: rest, acc => by
    have hc : v.code ≠ MsgPrevote ∨ v.code ≠ MsgPrecommit := by
      rcases eq_or_ne v.code MsgPrevote with h | h
      · exact Or.inr (by rw [h]; decide)
      · exact Or.inl h
    rw [List.foldl_cons, if_pos hc]
    exact powerOfVotes_foldl rest acc

/-- Looking up the key of a just-inserted message finds that message. -/
theorem lookup_insert (ms : MsgStore) (m : ConsensusMessage) :
    lookupKey ((m.key, m) :: ms) m.key = some m := by
  simp [lookupKey, List.find?]

/-- Save inserts when the key is absent. -/
theorem save_absent (rlpHash : Nat → Nat) (ms : MsgStore) (m : ConsensusMessage)
    (h : lookupKey ms m.key = none) :
    MsgStore.Save rlpHash ms m = ((m.key, m) :: ms, none, none) := by
  unfold MsgStore.Save
  rw [h]

/-- Save is a no-op reporting no error when the stored message at the key
has the same payload hash. -/
theorem save_same (rlpHash : Nat → Nat) (ms : MsgStore) (m prior : ConsensusMessage)
    (h : lookupKey ms m.key = some prior)
    (h2 : rlpHash prior.payload = rlpHash m.payload) :
    MsgStore.Save rlpHash ms m = (ms, none, none) := by
  unfold MsgStore.Save
  rw [h]
  simp [h2]

/-- Save keeps the store and reports the stored message with the
equivocation error when the payload hashes differ. -/
theorem save_conflict (rlpHash : Nat → Nat) (ms : MsgStore) (m prior : ConsensusMessage)
    (h : lookupKey ms m.key = some prior)
    (h2 : rlpHash prior.payload ≠ rlpHash m.payload) :
    MsgStore.Save rlpHash ms m = (ms, some prior, some AfdError.errEquivocation) := by
  unfold MsgStore.Save
  rw [h]
  simp [h2]

/-- When the first Save reports no error, saving the same message again
leaves the store unchanged and reports no error. -/
theorem save_self (rlpHash : Nat → Nat) (ms : MsgStore) (m : ConsensusMessage)
    (h : (MsgStore.Save rlpHash ms m).2.2 = none) :
    MsgStore.Save rlpHash (MsgStore.Save rlpHash ms m).1 m =
      ((MsgStore.Save rlpHash ms m).1, none, none) := by
  cases hl : lookupKey ms m.key with
  | none =>
    rw [save_absent rlpHash ms m hl]
    exact save_same rlpHash _ m m (lookup_insert ms m) rfl
  | some prior =>
    by_cases hh : rlpHash prior.payload = rlpHash m.payload
    · rw [save_same rlpHash ms m prior hl hh]
      exact save_same rlpHash ms m prior hl hh
    · rw [save_conflict rlpHash ms m prior hl hh] at h
      cases h

/-- The Get scan accumulates exactly the filtered entries, in visit
order. -/
theorem getLoop_eq_filter (q : ConsensusMessage → Bool) (l : List ConsensusMessage) :
    getLoop q l = l.filter q := by
  suffices h : ∀ acc, l.foldl (fun result m => if q m then result ++ [m] else result) acc
      = acc ++ l.filter q by
    simpa using h []
  induction l with
  | nil => intro acc; simp
  | cons x rest ih =>
    intro acc
    by_cases hx : q x
    · simp [hx, ih, List.append_assoc]
    · simp [hx, ih]

/-- The buffer fold of processBufferedMsgs visits every entry: the
self-comparison guard is always true. -/
theorem replayed_foldl : ∀ (entries : List (Nat × List ConsensusMessage))
    (acc : List ConsensusMessage),
    entries.foldl (fun acc entry => if entry.1 ≤ entry.1 then acc ++ entry.2 else acc) acc
      = acc ++ (entries.map (·.2)).flatten
  | [], acc => by simp
  | e :: rest, acc => by
    rw [List.foldl_cons, if_pos (le_refl e.1), replayed_foldl rest (acc ++ e.2)]
    simp [List.append_assoc]

/-- A Cmp result on big integers is never greater than 1. -/
theorem bigCmp_le_one (x y : Nat) : ¬ bigCmp x y > 1 := by
  unfold bigCmp
  split_ifs <;> decide

end Afd

namespace Tendermint

/-- C8: within a single round, i.e. along any sequence of ReceiveMessage
calls starting from the state produced by a StartRound call (which resets
the three one-shot latches), the Line 36 outcome, the Line 34 outcome and
the Line 47 outcome are each produced at most once, no matter how many
qualifying messages arrive. -/
theorem claim_C8 (a : Algorithm) (r : Int)
    (res : Algorithm × Option ConsensusMessage × Option Timeout × Bool)
    (h : a.StartRound r = some res) (msgs : List ConsensusMessage) :
    count36 res.1 msgs ≤ 1 ∧ count34 res.1 msgs ≤ 1 ∧ count47 res.1 msgs ≤ 1 :=
  ⟨count36_le_one msgs res.1 (startRound_flags a r res h).2.1,
   count34_le_one msgs res.1 (startRound_flags a r res h).1,
   count47_le_one msgs res.1 (startRound_flags a r res h).2.2⟩

/-- Witness for C8 at the concrete fresh state a0 starting round 0. -/
theorem claim_C8_witness :
    count36 sr0.1 [] ≤ 1 ∧ count34 sr0.1 [] ≤ 1 ∧ count47 sr0.1 [] ≤ 1 :=
  claim_C8 a0 0 sr0 rfl []

/-- C9: StartRound has precondition r greater than the current round; a
call with r at most the current round aborts (modelled as none) without
yielding a successor state, under the precondition the abort branch is
unreachable, and a fresh Algorithm starts at round -1 so StartRound 0 is
accepted. -/
theorem claim_C9 :
    (∀ (a : Algorithm) (r : Int), r ≤ a.round → a.StartRound r = none) ∧
    (∀ (a : Algorithm) (r : Int), a.round < r → (a.StartRound r).isSome = true) ∧
    ∀ (n : NodeID) (o : Oracle),
      (Algorithm.New n o).round = -1 ∧ ((Algorithm.New n o).StartRound 0).isSome = true :=
  ⟨fun a r h => by unfold Algorithm.StartRound; rw [if_pos h],
   startRound_isSome,
   fun n o => ⟨rfl, startRound_isSome (Algorithm.New n o) 0 (by show (-1 : Int) < 0; decide)⟩⟩

/-- Witness for C9 at the concrete fresh state a0. -/
theorem claim_C9_witness :
    a0.StartRound (-1) = none ∧ (a0.StartRound 0).isSome = true ∧
      (Algorithm.New 0 testOracle).round = -1 :=
  ⟨claim_C9.1 a0 (-1) (by decide), claim_C9.2.1 a0 0 (by decide),
   (claim_C9.2.2 0 testOracle).1⟩

/-- C10: every RoundChange returned by ReceiveMessage with a non-nil
Decision has Round 0; the Line 55 round skip returns a RoundChange with a
nil Decision; and OnTimeoutPrecommit returns a RoundChange with a nil
Decision — a decision and a skip to a later round are never combined. -/
theorem claim_C10 :
    (∀ (a : Algorithm) (cm : ConsensusMessage) (rc : RoundChange),
        (a.ReceiveMessage cm).2.1 = some rc → rc.Decision.isSome = true → rc.Round = 0) ∧
    (∀ (a : Algorithm) (cm : ConsensusMessage) (rc : RoundChange),
        takes55 a cm → (a.ReceiveMessage cm).2.1 = some rc → rc.Decision = none) ∧
    ∀ (a : Algorithm) (h : Nat) (r : Int) (rc : RoundChange),
      a.OnTimeoutPrecommit h r = some rc → rc.Decision = none := by
  refine ⟨?_, ?_, ?_⟩
  · intro a cm rc h1 h2
    simp only [Algorithm.ReceiveMessage] at h1
    split_ifs at h1 <;> first | (cases h1 <;> rfl) | (cases h1 <;> simp at h2) | simp_all
  · intro a cm rc ht h1
    obtain ⟨n22, n28, n36, n44, n34, n49, n47, g⟩ := ht
    simp only [Algorithm.ReceiveMessage, if_neg n22, if_neg n28, if_neg n36, if_neg n44,
      if_neg n34, if_neg n49, if_neg n47, if_pos g] at h1
    cases h1 <;> rfl
  · intro a h r rc hh
    unfold Algorithm.OnTimeoutPrecommit at hh
    split_ifs at hh <;> cases hh <;> rfl

/-- Witness for C10 at the concrete decide, skip and timeout instances. -/
theorem claim_C10_witness :
    rcD.Round = 0 ∧ rcS.Decision = none ∧ rcT.Decision = none :=
  ⟨claim_C10.1 aD cmD rcD rfl rfl,
   claim_C10.2.1 aS cmS rcS (by decide) rfl,
   claim_C10.2.2 a0 1 (-1) rcT (by decide)⟩

/-- C2: divergence witness.  The source evaluates the Line 22 value
condition with the Go precedence, broadcasting a Prevote for the proposed
value whenever the locked value equals it, even when the validity check
fails; the claim states that a proposal failing validity is never
prevoted.  At the state aLocked (locked on value 7, validity always
false) the proposal cmProp for value 7 is prevoted. -/
theorem claim_C2_bug :
    oInvalid.Valid 7 = false ∧
    (aLocked.ReceiveMessage cmProp).2.2.1 =
      some { MsgType := Step.Prevote, Height := 11, Round := 0, Value := 7, ValidRound := 0 } :=
  ⟨rfl, rfl⟩

end Tendermint

namespace Afd

/-- C1: divergence witness.  powerOfVotes skips a message when its type
differs from MsgPrevote or differs from MsgPrecommit; that disjunction
holds for every message, so the function returns 0 on every list — in
particular a single prevote of power 1 contributes nothing, where the
claim requires the sum 1. -/
theorem claim_C1_bug :
    powerOfVotes [mPv] = 0 ∧ mPv.power = 1 ∧
      ∀ votes : List ConsensusMessage, powerOfVotes votes = 0 :=
  ⟨rfl, rfl, fun votes => powerOfVotes_foldl votes 0⟩

/-- C3: divergence witness.  Cmp returns at most 1, so the future-message
classification of checkMsgSignature is unreachable: a message at height 7
against a chain head at height 5 is not classified as future (it fails
the committee check instead) and processMsg does not buffer it; no input
at all makes checkMsgSignature return the future-message error. -/
theorem claim_C3_bug :
    bigCmp 7 5 = 1 ∧
    checkMsgSignature chain3 mFut = some AfdError.errNotCommitteeMsg ∧
    (processMsg fd3 mFut).1.futureMsgs = [] ∧
    ∀ (chain : Chain) (m : ConsensusMessage),
      ¬ checkMsgSignature chain m = some AfdError.errFutureMsg := by
  refine ⟨rfl, rfl, rfl, ?_⟩
  intro chain m h
  unfold checkMsgSignature at h
  cases hm : m.height with
  | none => rw [hm] at h; cases h
  | some k =>
    rw [hm] at h
    dsimp only at h
    rw [if_neg (bigCmp_le_one k chain.currentHeaderNumber)] at h
    split_ifs at h <;> cases h

/-- C4: counterexample.  The Rule enumeration is built with iota starting
at 0, so the PN rule is carried as 0, not as the 1 the claim states. -/
theorem claim_C4_cex : Rule.value Rule.PN = 0 ∧ ¬ Rule.value Rule.PN = 1 := by
  decide

/-- C4 amended: the rule field of the proof envelope takes the values
PN = 0, PO = 1, PVN = 2, PVO = 3, C = 4, C1 = 5, GarbageMessage = 6,
InvalidProposal = 7, InvalidProposer = 8, Equivocation = 9, and
errorToRule maps each protocol-fault error to the matching rule. -/
theorem claim_C4_amended :
    Rule.value Rule.PN = 0 ∧ Rule.value Rule.PO = 1 ∧ Rule.value Rule.PVN = 2 ∧
    Rule.value Rule.PVO = 3 ∧ Rule.value Rule.C = 4 ∧ Rule.value Rule.C1 = 5 ∧
    Rule.value Rule.GarbageMessage = 6 ∧ Rule.value Rule.InvalidProposal = 7 ∧
    Rule.value Rule.InvalidProposer = 8 ∧ Rule.value Rule.Equivocation = 9 ∧
    errorToRule AfdError.errEquivocation = (Rule.Equivocation, true) ∧
    errorToRule AfdError.errProposer = (Rule.InvalidProposer, true) ∧
    errorToRule AfdError.errProposal = (Rule.InvalidProposal, true) ∧
    errorToRule AfdError.errGarbageMsg = (Rule.GarbageMessage, true) := by
  decide

/-- C5: divergence witness.  In processBufferedMsgs the loop variable
shadows the height parameter, so the guard compares an entry height with
itself and every buffered message is replayed regardless of the new chain
head, and no buffer is ever purged: advancing the head to 5 replays the
height-12 message (the claim says messages beyond head + 1 stay
untouched) and leaves both buffers, including the height-2 one the claim
says is purged. -/
theorem claim_C5_bug :
    replayedMsgs fd5 5 = [mE, mF] ∧
    processBufferedMsgs fd5 5 = fd5 ∧
    ∀ (fd : FaultDetector) (h : Nat),
      replayedMsgs fd h = (fd.futureMsgs.map (·.2)).flatten := by
  refine ⟨rfl, rfl, ?_⟩
  intro fd h
  unfold replayedMsgs
  simpa using replayed_foldl fd.futureMsgs []

/-- C6: counterexample.  When the store already holds a conflicting
message at the key of m, save(m) followed by save(m) does not return
(none, ok) the second time: both saves report the stored message with the
equivocation error, refuting the unconditional repeated-save clause of
the claim. -/
theorem claim_C6_cex :
    ¬ ((MsgStore.Save id ((MsgStore.Save id msEquiv m2).1) m2).2 =
        ((none : Option ConsensusMessage), (none : Option AfdError))) := by
  decide

/-- C6 amended: Save inserts and returns (none, ok) at an absent key,
returns (none, ok) leaving the store unchanged when the stored message
has the same payload hash, returns the stored message with the
equivocation error otherwise (keeping the first message), and repeating a
save that reported ok leaves the store unchanged and returns (none, ok)
the second time. -/
theorem claim_C6_amended (rlpHash : Nat → Nat) (ms : MsgStore) (m : ConsensusMessage) :
    (lookupKey ms m.key = none →
      MsgStore.Save rlpHash ms m = ((m.key, m) :: ms, none, none)) ∧
    (∀ prior, lookupKey ms m.key = some prior →
      rlpHash prior.payload = rlpHash m.payload →
      MsgStore.Save rlpHash ms m = (ms, none, none)) ∧
    (∀ prior, lookupKey ms m.key = some prior →
      rlpHash prior.payload ≠ rlpHash m.payload →
      MsgStore.Save rlpHash ms m = (ms, some prior, some AfdError.errEquivocation)) ∧
    ((MsgStore.Save rlpHash ms m).2.2 = none →
      MsgStore.Save rlpHash (MsgStore.Save rlpHash ms m).1 m =
        ((MsgStore.Save rlpHash ms m).1, none, none)) :=
  ⟨save_absent rlpHash ms m,
   fun prior => save_same rlpHash ms m prior,
   fun prior => save_conflict rlpHash ms m prior,
   save_self rlpHash ms m⟩

/-- Witness for the amended C6 at the empty store: the insert case and
the repeated-save case. -/
theorem claim_C6_witness :
    MsgStore.Save id [] m1 = ((m1.key, m1) :: [], none, none) ∧
    MsgStore.Save id (MsgStore.Save id [] m1).1 m1 =
      ((MsgStore.Save id [] m1).1, none, none) :=
  ⟨(claim_C6_amended id [] m1).1 rfl,
   (claim_C6_amended id [] m1).2.2.2 (by decide)⟩

/-- C7: counterexample.  Get visits the stored messages in the Go map
iteration order, which is unspecified: both visit orders of the two
messages of ms7 are possible for the same store contents, one of the
resulting sequences is not ascending in (round, step, sender), and the
two results differ — refuting both the claimed stable ascending order and
the claimed call-to-call stability. -/
theorem claim_C7_cex :
    IterationOrder ms7 11 [mB, mA] ∧ IterationOrder ms7 11 [mA, mB] ∧
    MsgStore.Get ms7 11 qTrue [mB, mA] = [mB, mA] ∧
    MsgStore.Get ms7 11 qTrue [mA, mB] = [mA, mB] ∧
    ¬ SortedGet [mB, mA] ∧
    ¬ MsgStore.Get ms7 11 qTrue [mB, mA] = MsgStore.Get ms7 11 qTrue [mA, mB] := by
  refine ⟨?_, ?_, rfl, rfl, ?_, ?_⟩
  · exact List.Perm.swap mA mB []
  · exact List.Perm.refl [mA, mB]
  · intro hs
    unfold SortedGet at hs
    rw [List.chain'_pair] at hs
    revert hs
    decide
  · decide

/-- C7 amended: for every iteration order the store can produce, Get
returns copies of exactly the stored messages at the height satisfying
the query — the result is a permutation of the matching messages — while
the order of the result is the unspecified map iteration order. -/
theorem claim_C7_amended (ms : MsgStore) (h : Nat) (q : ConsensusMessage → Bool)
    (order : List ConsensusMessage) (ho : IterationOrder ms h order) :
    (MsgStore.Get ms h q order).Perm ((msgsAtHeight ms h).filter q) := by
  unfold MsgStore.Get
  unfold IterationOrder at ho
  rw [getLoop_eq_filter]
  exact ho.filter q

/-- Witness for the amended C7 at the concrete store ms7. -/
theorem claim_C7_witness :
    (MsgStore.Get ms7 11 qTrue [mA, mB]).Perm ((msgsAtHeight ms7 11).filter qTrue) :=
  claim_C7_amended ms7 11 qTrue [mA, mB] (List.Perm.refl [mA, mB])

end Afd
